import Mathlib

/-!
Shallow embedding of the Zendure Hyper2000 power-balancing manager
(`custom_components/zendure_ha/zendurermanager.py`), covering the
smart-matching decision loop (`_update_energy`), the allocation functions
(`upd_charging`, `upd_discharging`), the mode-change handler
(`update_operation`) and the inbound transport handler (`on_message`).

Modelling conventions:
* Sensor states are `Option Int`: `none` is the Home Assistant unknown
  sentinel (a `ZendureSensor` never updated has native value `None`);
  known values are integers because `ZendureSensor.update_value` stores
  `int(value)`.
* Python exceptions are modelled with `Except String`; accessing an
  unknown (`None`) value where Python would raise (`float(None)`,
  `None > x`, summing `None`) produces `.error`.
* Wall-clock time is an integer number of seconds; `timedelta(minutes=5)`
  is `300`.
* `datetime.now()` is passed in explicitly as `now`; the two calls on
  lines 134-135 of the source are taken at the same instant.
* Publishing a command with `h.update_power(mqtt, flag, charge, discharge)`
  is modelled as emitting a `PowerCommand` value; the list of commands a
  handler returns is the sequence it would publish.
* The Python `sorted` builtin is a stable sort; it is modelled with
  `List.insertionSort`, which is extensionally the unique stable sort for
  the given key order.  `sorted(xs, key=k)` becomes
  `insertionSort (k a ≤ k b)`; `sorted(xs, key=k, reverse=True)` becomes
  `insertionSort (k b ≤ k a)` (Python documents that `reverse=True` keeps
  the original order of equal elements, exactly as this relation does).
* The Python expression `int(x / n)` truncates toward zero: `Int.tdiv`.
-/

/-- Per-device snapshot: the named sensors of one Hyper2000 read by the
manager (`h.sensors[...].state`).  `hid` is the device identifier. -/
structure Hyper where
  hid : String
  electricLevel : Option Int
  minSoc : Option Int
  socSet : Option Int
  inputLimit : Option Int
  outputLimit : Option Int
  outputHomePower : Option Int
  gridInputPower : Option Int
deriving Repr, DecidableEq

/-- One published control message: the arguments of
`h.update_power(mqtt, chargeFlag, chargeWatts, dischargeWatts)`. -/
structure PowerCommand where
  hid : String
  chargeFlag : Int
  chargeWatts : Int
  dischargeWatts : Int
deriving Repr, DecidableEq

/-- The manager state fields that the balancing loop reads and writes. -/
structure ManagerState where
  hypers : List Hyper
  operation : Int
  next_update : Int
  hypers_charge : List Hyper
  hypers_discharge : List Hyper
  max_charge : Int
  max_discharge : Int
  consumed : String
  produced : String
deriving Repr, DecidableEq

/-- Result of one `_update_energy` invocation: the new manager state, the
commands published during the decision, and whether the ranked fleet was
recomputed in this invocation (pure observation of the line 134 branch). -/
structure UpdateResult where
  state : ManagerState
  commands : List PowerCommand
  recomputed : Bool
deriving Repr, DecidableEq

deriving instance DecidableEq for Except

/-- Reading a sensor state where Python would coerce it to a number
(`float(...)`, `>` against a number, `sum`): `None` raises `TypeError`. -/
def knownF : Option Int → Except String Int
  | some v => .ok v
  | none => .error "TypeError"

/-- Sort key of both ranked lists, `h.sensors["electricLevel"].state`.
Only applied to devices that passed an eligibility test, hence whose
`electricLevel` is present; the default is never reached there. -/
def elKey (h : Hyper) : Int := h.electricLevel.getD 0

/-- Line 137 filter: `h.sensors["electricLevel"].state > float(h.sensors["minSoc"].state)`;
raises if either value is unknown. -/
def dischargeTest (h : Hyper) : Except String Bool := do
  let lvl ← knownF h.electricLevel
  let ms ← knownF h.minSoc
  pure (decide (lvl > ms))

/-- Line 142 filter: `h.sensors["electricLevel"].state < float(h.sensors["socSet"].state)`;
raises if either value is unknown. -/
def chargeTest (h : Hyper) : Except String Bool := do
  let lvl ← knownF h.electricLevel
  let ss ← knownF h.socSet
  pure (decide (lvl < ss))

/-- Python list comprehension with a condition that can raise. -/
def filterE (p : Hyper → Except String Bool) : List Hyper → Except String (List Hyper)
  | [] => .ok []
  | h :: t => do
    let b ← p h
    let rest ← filterE p t
    pure (if b then h :: rest else rest)

/-- Python `sum(f(h) for h in l)` over sensor states that can be unknown. -/
def sumE (f : Hyper → Option Int) : List Hyper → Except String Int
  | [] => .ok 0
  | h :: t => do
    let v ← knownF (f h)
    let rest ← sumE f t
    pure (v + rest)

/-- The recomputed ranked fleet: both candidate lists and both aggregate
limits (lines 136-146). -/
structure RankedFleet where
  hypers_discharge : List Hyper
  hypers_charge : List Hyper
  max_charge : Int
  max_discharge : Int
deriving Repr, DecidableEq

/-- Lines 136-146 of `_update_energy`: build the dischargeable list
(filter `electricLevel > minSoc`, stable sort by `electricLevel`
descending), the chargeable list (filter `electricLevel < socSet`, stable
sort ascending), then sum `inputLimit` over the chargeable list and
`outputLimit` over the dischargeable one. -/
def recomputeFleet (hypers : List Hyper) : Except String RankedFleet := do
  let dis ← filterE dischargeTest hypers
  let hypersDischarge := List.insertionSort (fun a b => elKey b ≤ elKey a) dis
  let ch ← filterE chargeTest hypers
  let hypersCharge := List.insertionSort (fun a b => elKey a ≤ elKey b) ch
  let maxCharge ← sumE (fun h => h.inputLimit) hypersCharge
  let maxDischarge ← sumE (fun h => h.outputLimit) hypersDischarge
  pure ⟨hypersDischarge, hypersCharge, maxCharge, maxDischarge⟩

/-- Line 179-186, `upd_charging`: empty list is a no-op; below 400 W the
rank-0 candidate gets the whole amount `(flag 1, charge, 0)` and every
other candidate is stopped `(0, 0, 0)`; at or above 400 W every candidate
gets `int(charge / len(list))` (truncating division). -/
def upd_charging (hypersCharge : List Hyper) (charge : Int) : List PowerCommand :=
  match hypersCharge with
  | [] => []
  | h0 :: rest =>
    if charge < 400 then
      ⟨h0.hid, 1, charge, 0⟩ :: rest.map (fun h => ⟨h.hid, 0, 0, 0⟩)
    else
      (h0 :: rest).map (fun h => ⟨h.hid, 1, Int.tdiv charge (h0 :: rest).length, 0⟩)

/-- Line 192-202, `upd_discharging`: empty list is a no-op; below 400 W
the rank-0 candidate gets the whole amount `(flag 0, 0, discharge)` and
every other candidate is stopped; at or above 400 W every candidate gets
`int(discharge / len(list))`. -/
def upd_discharging (hypersDischarge : List Hyper) (discharge : Int) : List PowerCommand :=
  match hypersDischarge with
  | [] => []
  | h0 :: rest =>
    if discharge < 400 then
      ⟨h0.hid, 0, 0, discharge⟩ :: rest.map (fun h => ⟨h.hid, 0, 0, 0⟩)
    else
      (h0 :: rest).map (fun h => ⟨h.hid, 0, 0, Int.tdiv discharge (h0 :: rest).length⟩)

/-- Line 134 staleness test, transcribed verbatim: the source tests
`(not self._hypers_charge and not self._hypers_charge)` — the chargeable
list twice — `or (self.next_update < datetime.now())`. -/
def fleet_stale (s : ManagerState) (now : Int) : Bool :=
  (s.hypers_charge.isEmpty && s.hypers_charge.isEmpty) || decide (s.next_update < now)

/-- The try-block of `_update_energy` (lines 128-168).  `entity_id` is the
entity of the event, `newState` the numeric value of its new state
(`none` when `int(float(...))` would raise).  Operation 1 (manual) and any
operation other than 2 return without acting; operation 2 recomputes the
ranked fleet when `fleet_stale`, resets `next_update` to `now + 300`,
then dispatches on the power value and the current aggregates. -/
def update_energy_body (s : ManagerState) (now : Int) (entity_id : String)
    (newState : Option Int) : Except String UpdateResult :=
  if s.operation = 1 then .ok ⟨s, [], false⟩
  else if s.operation = 2 then do
    let (s, recomputed) ←
      if fleet_stale s now then do
        let s := { s with next_update := now + 300 }
        let fleet ← recomputeFleet s.hypers
        pure ({ s with
                  hypers_discharge := fleet.hypers_discharge
                  hypers_charge := fleet.hypers_charge
                  max_charge := fleet.max_charge
                  max_discharge := fleet.max_discharge }, true)
      else pure (s, false)
    let power ← knownF newState
    if power = 0 then pure ⟨s, [], recomputed⟩
    else do
      let discharge ← sumE (fun h => h.outputHomePower) s.hypers_discharge
      if discharge > 0 then
        pure ⟨s, upd_discharging s.hypers_discharge
          (discharge + power * (if entity_id = s.consumed then 1 else -1)), recomputed⟩
      else do
        let charge ← sumE (fun h => h.gridInputPower) s.hypers_charge
        if charge > 0 then
          pure ⟨s, upd_charging s.hypers_charge
            (charge + power * (if entity_id = s.consumed then -1 else 1)), recomputed⟩
        else if entity_id = s.produced then
          pure ⟨s, upd_charging s.hypers_charge power, recomputed⟩
        else
          pure ⟨s, upd_discharging s.hypers_discharge power, recomputed⟩
  else .ok ⟨s, [], false⟩

/-- The whole `_update_energy` handler, try-block plus except-clause.  The
except-clause (lines 169-171) logs the error and then evaluates
`traceback.format_exc()`, but the module never imports `traceback`, so
handling any exception raises a `NameError` that escapes the handler. -/
def update_energy (s : ManagerState) (now : Int) (entity_id : String)
    (newState : Option Int) : Except String UpdateResult :=
  match update_energy_body s now entity_id newState with
  | .ok r => .ok r
  | .error _ => .error "NameError: name traceback is not defined"

/-- Lines 106-110, `update_operation`: store the new operation; when it is
not 2 (smart matching), publish `update_power(mqtt, 0, 0, 0)` to every
known device, in catalog order. -/
def update_operation (s : ManagerState) (operation : Int) :
    ManagerState × List PowerCommand :=
  ({ s with operation := operation },
   if operation ≠ 2 then s.hypers.map (fun h => ⟨h.hid, 0, 0, 0⟩) else [])

/-- A parsed JSON payload: its `deviceId` field (absent, or a string —
`none` models a missing key) and the rest of the object, left opaque. -/
structure InPayload where
  deviceId : Option String
  fields : List (String × Int)
deriving Repr, DecidableEq

/-- An inbound transport message as `on_message` sees it: `payload` is
`none` when `json.loads(msg.payload.decode())` raises (non-JSON bytes),
otherwise the parsed object, of which only the optional `deviceId` field
and the remaining payload matter to the handler. -/
structure InMsg where
  topic : String
  payload : Option InPayload
deriving Repr, DecidableEq

/-- Lines 204-213, `on_message`: parse the payload, discard it when
parsing fails (the exception is caught and logged), when `deviceId` is
missing or falsy (the empty string), or when it names no catalog device;
otherwise dispatch to the `handle_message` of that device.  `handle_message`
lives in `hyper2000.py`, which is outside the embedded sources, so the
ingest step is a parameter `ingest`; the claims settled here hold for
every `ingest`. -/
def on_message (ingest : Hyper → String → InPayload → Hyper)
    (s : ManagerState) (msg : InMsg) : ManagerState :=
  match msg.payload with
  | none => s
  | some p =>
    match p.deviceId with
    | none => s
    | some did =>
      if did = "" then s
      else if (s.hypers.find? (fun h => h.hid = did)).isSome then
        { s with hypers := s.hypers.map (fun h =>
            if h.hid = did then ingest h msg.topic p else h) }
      else s

/-- Value of `minSoc` on a device whose `minSoc` is known. -/
def msKey (h : Hyper) : Int := h.minSoc.getD 0

/-- Value of `socSet` on a device whose `socSet` is known. -/
def ssKey (h : Hyper) : Int := h.socSet.getD 0

/-- Value of `inputLimit` on a device whose `inputLimit` is known. -/
def ilKey (h : Hyper) : Int := h.inputLimit.getD 0

/-- Value of `outputLimit` on a device whose `outputLimit` is known. -/
def olKey (h : Hyper) : Int := h.outputLimit.getD 0

/-- A device that has received inbound telemetry: none of its sensor
states is the unknown sentinel. -/
def KnownState (h : Hyper) : Prop :=
  h.electricLevel.isSome = true ∧ h.minSoc.isSome = true ∧ h.socSet.isSome = true ∧
  h.inputLimit.isSome = true ∧ h.outputLimit.isSome = true ∧
  h.outputHomePower.isSome = true ∧ h.gridInputPower.isSome = true

instance : DecidablePred KnownState := fun h => by
  unfold KnownState
  infer_instance

/-- Concrete device fixture: half full, dischargeable and chargeable. -/
def devA : Hyper := ⟨"a", some 50, some 20, some 60, some 800, some 800, some 0, some 0⟩

/-- Concrete device fixture: emptiest, dischargeable and chargeable. -/
def devB : Hyper := ⟨"b", some 30, some 20, some 60, some 800, some 800, some 0, some 0⟩

/-- Concrete device fixture: fullest, dischargeable, not chargeable. -/
def devC : Hyper := ⟨"c", some 70, some 20, some 60, some 800, some 800, some 0, some 0⟩

/-- Concrete device fixture: no inbound message yet, every sensor unknown. -/
def devU : Hyper := ⟨"u", none, none, none, none, none, none, none⟩

instance : IsTotal Hyper (fun a b => elKey a ≤ elKey b) :=
  ⟨fun a b => le_total (elKey a) (elKey b)⟩

instance : IsTrans Hyper (fun a b => elKey a ≤ elKey b) :=
  ⟨fun _ _ _ hab hbc => le_trans hab hbc⟩

instance : IsTotal Hyper (fun a b => elKey b ≤ elKey a) :=
  ⟨fun a b => le_total (elKey b) (elKey a)⟩

instance : IsTrans Hyper (fun a b => elKey b ≤ elKey a) :=
  ⟨fun _ _ _ hab hbc => le_trans hbc hab⟩

/-- Staleness condition as the claim states it (kept for comparison with
`fleet_stale`, which is transcribed from line 134 of the source): both
candidate lists empty, or the freshness deadline elapsed. -/
def fleet_stale_claim (s : ManagerState) (now : Int) : Bool :=
  (s.hypers_charge.isEmpty && s.hypers_discharge.isEmpty) || decide (s.next_update < now)

/-- Concrete device fixture: discharging 300 W into the home,
dischargeable (50 > 20) but not chargeable (50 < 50 fails). -/
def devD : Hyper := ⟨"d", some 50, some 20, some 50, some 800, some 800, some 300, some 0⟩

/-- Manager state fixture: SmartMatching, chargeable list empty,
dischargeable list non-empty, freshness deadline 100 s in the future. -/
def stateChargeEmpty : ManagerState :=
  ⟨[devD], 2, 100, [], [devD], 0, 800, "meter_consumed", "meter_produced"⟩

/-- Manager state fixture: SmartMatching with one never-heard-from device
in the catalog and an elapsed deadline, so the handler recomputes. -/
def stateUnknownDevice : ManagerState :=
  ⟨[devU], 2, 50, [devA], [devA], 800, 800, "meter_consumed", "meter_produced"⟩

/-- Manager state fixture: fresh fleet (deadline ahead, chargeable list
non-empty), one device discharging 300 W. -/
def stateDischarging : ManagerState :=
  ⟨[devD], 2, 1000, [devB], [devD], 800, 800, "meter_consumed", "meter_produced"⟩

/-- Manager state fixture: SmartMatching over two known devices, cached
lists unused by the mode-change handler. -/
def stateSmart : ManagerState :=
  ⟨[devA, devB], 2, 0, [], [], 0, 0, "meter_consumed", "meter_produced"⟩

/-- Manager state fixture: SmartMatching with an empty catalog and a
far-future deadline. -/
def stateEmptyFleet : ManagerState :=
  ⟨[], 2, 1000, [], [], 0, 0, "meter_consumed", "meter_produced"⟩

/-- Manager state fixture: SmartMatching, one chargeable device in the
catalog, empty cached lists (forcing the first recompute). -/
def stateFirstCall : ManagerState :=
  ⟨[devB], 2, 1000, [], [], 0, 0, "meter_consumed", "meter_produced"⟩

/-- The state after the first invocation on `stateFirstCall` at time 0:
deadline reset to 300, both lists recomputed to `[devB]`. -/
def stateAfterFirst : ManagerState :=
  ⟨[devB], 2, 300, [devB], [devB], 800, 800, "meter_consumed", "meter_produced"⟩

theorem ok_bind {α β : Type} (a : α) (f : α → Except String β) :
    (Except.ok a >>= f : Except String β) = f a := rfl

theorem error_bind {α β : Type} (msg : String) (f : α → Except String β) :
    (Except.error msg >>= f : Except String β) = Except.error msg := rfl

theorem filterE_ok (p : Hyper → Except String Bool) (q : Hyper → Bool) :
    ∀ l : List Hyper, (∀ h ∈ l, p h = .ok (q h)) → filterE p l = .ok (l.filter q)
  | [], _ => rfl
  | h :: t, H => by
    have ht : filterE p t = .ok (t.filter q) :=
      filterE_ok p q t (fun x hx => H x (List.mem_cons_of_mem h hx))
    have hh : p h = .ok (q h) := H h (List.mem_cons_self h t)
    simp only [filterE, hh, ok_bind, ht, List.filter_cons]
    cases hq : q h <;> simp [hq, pure, Except.pure]

theorem sumE_ok (f : Hyper → Option Int) :
    ∀ l : List Hyper, (∀ h ∈ l, (f h).isSome = true) →
      sumE f l = .ok (l.map (fun h => (f h).getD 0)).sum
  | [], _ => rfl
  | h :: t, H => by
    have ht : sumE f t = .ok (t.map (fun h => (f h).getD 0)).sum :=
      sumE_ok f t (fun x hx => H x (List.mem_cons_of_mem h hx))
    obtain ⟨v, hv⟩ := Option.isSome_iff_exists.mp (H h (List.mem_cons_self h t))
    simp only [sumE, hv, knownF, ok_bind, ht, List.map_cons, List.sum_cons,
      Option.getD_some, pure, Except.pure]

theorem dischargeTest_known (h : Hyper) (h1 : h.electricLevel.isSome = true)
    (h2 : h.minSoc.isSome = true) :
    dischargeTest h = .ok (decide (msKey h < elKey h)) := by
  obtain ⟨l, hl⟩ := Option.isSome_iff_exists.mp h1
  obtain ⟨m, hm⟩ := Option.isSome_iff_exists.mp h2
  simp [dischargeTest, knownF, hl, hm, elKey, msKey, pure, Except.pure]
  rfl

theorem chargeTest_known (h : Hyper) (h1 : h.electricLevel.isSome = true)
    (h2 : h.socSet.isSome = true) :
    chargeTest h = .ok (decide (elKey h < ssKey h)) := by
  obtain ⟨l, hl⟩ := Option.isSome_iff_exists.mp h1
  obtain ⟨v, hv⟩ := Option.isSome_iff_exists.mp h2
  simp [chargeTest, knownF, hl, hv, elKey, ssKey, pure, Except.pure]
  rfl

/-- On a catalog of devices with fully known state, `recomputeFleet`
succeeds and returns the filtered, stably sorted lists and the sums of
the member limits. -/
theorem recomputeFleet_known (hs : List Hyper) (hK : ∀ h ∈ hs, KnownState h) :
    recomputeFleet hs = .ok
      ⟨List.insertionSort (fun a b => elKey b ≤ elKey a)
          (hs.filter (fun h => decide (msKey h < elKey h))),
       List.insertionSort (fun a b => elKey a ≤ elKey b)
          (hs.filter (fun h => decide (elKey h < ssKey h))),
       ((List.insertionSort (fun a b => elKey a ≤ elKey b)
          (hs.filter (fun h => decide (elKey h < ssKey h)))).map
            (fun h => h.inputLimit.getD 0)).sum,
       ((List.insertionSort (fun a b => elKey b ≤ elKey a)
          (hs.filter (fun h => decide (msKey h < elKey h)))).map
            (fun h => h.outputLimit.getD 0)).sum⟩ := by
  have hd : filterE dischargeTest hs =
      .ok (hs.filter (fun h => decide (msKey h < elKey h))) :=
    filterE_ok _ _ hs (fun h hm => dischargeTest_known h (hK h hm).1 (hK h hm).2.1)
  have hc : filterE chargeTest hs =
      .ok (hs.filter (fun h => decide (elKey h < ssKey h))) :=
    filterE_ok _ _ hs (fun h hm => chargeTest_known h (hK h hm).1 (hK h hm).2.2.1)
  have memchg : ∀ h ∈ List.insertionSort (fun a b => elKey a ≤ elKey b)
      (hs.filter (fun h => decide (elKey h < ssKey h))), h.inputLimit.isSome = true := by
    intro h hm
    have hm2 := (List.perm_insertionSort (fun a b => elKey a ≤ elKey b) _).mem_iff.mp hm
    exact (hK h (List.mem_filter.mp hm2).1).2.2.2.1
  have memdis : ∀ h ∈ List.insertionSort (fun a b => elKey b ≤ elKey a)
      (hs.filter (fun h => decide (msKey h < elKey h))), h.outputLimit.isSome = true := by
    intro h hm
    have hm2 := (List.perm_insertionSort (fun a b => elKey b ≤ elKey a) _).mem_iff.mp hm
    exact (hK h (List.mem_filter.mp hm2).1).2.2.2.2.1
  have hmc := sumE_ok (fun h => h.inputLimit) _ memchg
  have hmd := sumE_ok (fun h => h.outputLimit) _ memdis
  simp only [recomputeFleet, hd, ok_bind, hc, hmc, hmd]
  rfl

/-- C4: on any device set whose state attributes are all known numbers,
`recomputeFleet` succeeds; the chargeable list contains exactly the
devices with `electricLevel < socSet` and is sorted ascending by
`electricLevel`; the dischargeable list contains exactly the devices with
`electricLevel > minSoc` and is sorted descending by `electricLevel`; the
aggregate limits are the sums of the member `inputLimit` and
`outputLimit` values respectively. -/
theorem recompute_ranking (hs : List Hyper) (hK : ∀ h ∈ hs, KnownState h) :
    ∃ fleet : RankedFleet, recomputeFleet hs = .ok fleet ∧
      fleet.hypers_charge.Perm (hs.filter (fun h => decide (elKey h < ssKey h))) ∧
      fleet.hypers_charge.Sorted (fun a b => elKey a ≤ elKey b) ∧
      fleet.hypers_discharge.Perm (hs.filter (fun h => decide (msKey h < elKey h))) ∧
      fleet.hypers_discharge.Sorted (fun a b => elKey b ≤ elKey a) ∧
      fleet.max_charge = (fleet.hypers_charge.map ilKey).sum ∧
      fleet.max_discharge = (fleet.hypers_discharge.map olKey).sum := by
  refine ⟨_, recomputeFleet_known hs hK, List.perm_insertionSort _ _,
    List.sorted_insertionSort _ _, List.perm_insertionSort _ _,
    List.sorted_insertionSort _ _, rfl, rfl⟩

/-- Witness for C4 at the concrete three-device catalog. -/
theorem recompute_ranking_witness :
    (∀ h ∈ [devA, devB, devC], KnownState h) ∧
    (∃ fleet : RankedFleet, recomputeFleet [devA, devB, devC] = .ok fleet ∧
      fleet.hypers_charge.Perm
        (([devA, devB, devC] : List Hyper).filter (fun h => decide (elKey h < ssKey h))) ∧
      fleet.hypers_charge.Sorted (fun a b => elKey a ≤ elKey b) ∧
      fleet.hypers_discharge.Perm
        (([devA, devB, devC] : List Hyper).filter (fun h => decide (msKey h < elKey h))) ∧
      fleet.hypers_discharge.Sorted (fun a b => elKey b ≤ elKey a) ∧
      fleet.max_charge = (fleet.hypers_charge.map ilKey).sum ∧
      fleet.max_discharge = (fleet.hypers_discharge.map olKey).sum) :=
  ⟨by decide, recompute_ranking [devA, devB, devC] (by decide)⟩

/-- C5: for a non-empty candidate list, a total below 400 W goes entirely
to the rank-0 candidate while every other candidate is explicitly
commanded to zero flow; at or above 400 W every candidate receives the
integer quotient of the total by the candidate count (the remainder is
dropped); an empty candidate list is a no-op. -/
theorem allocation_threshold (h0 : Hyper) (rest : List Hyper) (w : Int) :
    (w < 400 →
      upd_charging (h0 :: rest) w =
        ⟨h0.hid, 1, w, 0⟩ :: rest.map (fun h => ⟨h.hid, 0, 0, 0⟩) ∧
      upd_discharging (h0 :: rest) w =
        ⟨h0.hid, 0, 0, w⟩ :: rest.map (fun h => ⟨h.hid, 0, 0, 0⟩)) ∧
    (400 ≤ w →
      upd_charging (h0 :: rest) w =
        (h0 :: rest).map (fun h => ⟨h.hid, 1, w / (((h0 :: rest).length : Int)), 0⟩) ∧
      upd_discharging (h0 :: rest) w =
        (h0 :: rest).map (fun h => ⟨h.hid, 0, 0, w / (((h0 :: rest).length : Int))⟩)) ∧
    upd_charging [] w = [] ∧ upd_discharging [] w = [] := by
  refine ⟨fun hlt => ?_, fun hge => ?_, rfl, rfl⟩
  · constructor <;> simp [upd_charging, upd_discharging, hlt]
  · have hnl : ¬ w < 400 := not_lt.mpr hge
    have hdiv : Int.tdiv w ((rest.length : Int) + 1) = w / ((rest.length : Int) + 1) :=
      Int.tdiv_eq_ediv (by omega) (by positivity)
    constructor <;> simp [upd_charging, upd_discharging, hnl, hdiv]

/-- Witness for C5: 399 W goes entirely to the rank-0 candidate of three,
600 W splits into 200 W each. -/
theorem allocation_threshold_witness :
    (upd_charging [devA, devB, devC] 399 =
        ⟨devA.hid, 1, 399, 0⟩ :: [devB, devC].map (fun h => ⟨h.hid, 0, 0, 0⟩) ∧
     upd_discharging [devA, devB, devC] 399 =
        ⟨devA.hid, 0, 0, 399⟩ :: [devB, devC].map (fun h => ⟨h.hid, 0, 0, 0⟩)) ∧
    (upd_charging [devA, devB, devC] 600 =
        ([devA, devB, devC] : List Hyper).map
          (fun h => ⟨h.hid, 1, 600 / ((([devA, devB, devC] : List Hyper).length : Int)), 0⟩) ∧
     upd_discharging [devA, devB, devC] 600 =
        ([devA, devB, devC] : List Hyper).map
          (fun h => ⟨h.hid, 0, 0, 600 / ((([devA, devB, devC] : List Hyper).length : Int))⟩)) :=
  ⟨(allocation_threshold devA [devB, devC] 399).1 (by decide),
   (allocation_threshold devA [devB, devC] 600).2.1 (by decide)⟩

/-- C10: a negative target wattage takes the below-400 single-device
branch; the rank-0 candidate is commanded the negative wattage unmodified
(no clamping to zero or to device limits) and every other candidate is
stopped. -/
theorem negative_target_unclamped (h0 : Hyper) (rest : List Hyper) (w : Int) (hw : w < 0) :
    upd_charging (h0 :: rest) w =
      ⟨h0.hid, 1, w, 0⟩ :: rest.map (fun h => ⟨h.hid, 0, 0, 0⟩) ∧
    upd_discharging (h0 :: rest) w =
      ⟨h0.hid, 0, 0, w⟩ :: rest.map (fun h => ⟨h.hid, 0, 0, 0⟩) := by
  have hlt : w < 400 := by omega
  constructor <;> simp [upd_charging, upd_discharging, hlt]

/-- Witness for C10 at a target of minus 100 W over two candidates. -/
theorem negative_target_unclamped_witness :
    upd_charging [devA, devB] (-100) =
      ⟨devA.hid, 1, -100, 0⟩ :: [devB].map (fun h => ⟨h.hid, 0, 0, 0⟩) ∧
    upd_discharging [devA, devB] (-100) =
      ⟨devA.hid, 0, 0, -100⟩ :: [devB].map (fun h => ⟨h.hid, 0, 0, 0⟩) :=
  negative_target_unclamped devA [devB] (-100) (by decide)

/-- C1: the handler recomputes the ranked fleet in a state where the
claimed condition says it must not — chargeable list empty, dischargeable
list non-empty, deadline not elapsed.  Line 134 of the source tests
`_hypers_charge` twice instead of both lists, so `fleet_stale` is true
although the staleness condition stated by the claim is false; the
handler recomputes and resets the deadline to now + 5 minutes. -/
theorem stale_check_tests_charge_list_twice :
    fleet_stale_claim stateChargeEmpty 0 = false ∧
    fleet_stale stateChargeEmpty 0 = true ∧
    update_energy stateChargeEmpty 0 "meter_consumed" (some 0) =
      .ok ⟨{ stateChargeEmpty with next_update := 300 }, [], true⟩ := by
  decide

/-- C2: a decision-cycle exception is not contained.  With a
never-heard-from device in the catalog and an elapsed deadline, the
recompute raises `TypeError`; the except clause of `_update_energy` then
evaluates `traceback.format_exc()`, but the module never imports
`traceback`, so a `NameError` escapes the handler. -/
theorem decision_error_escapes_handler :
    update_energy stateUnknownDevice 100 "meter_consumed" (some 100) =
      .error "NameError: name traceback is not defined" := by
  decide

/-- C3: a device whose state is still the unknown sentinel is not
excluded from the candidate lists; the recompute raises `TypeError`
instead (`None` compared against a number), so no lists are produced at
all — also when known devices that the claim says should survive are
present.  With only known devices the recompute succeeds. -/
theorem unknown_state_raises_in_recompute :
    recomputeFleet [devU] = .error "TypeError" ∧
    recomputeFleet [devA, devU] = .error "TypeError" ∧
    recomputeFleet [devA] = .ok ⟨[devA], [devA], 800, 800⟩ := by
  decide

/-- C6: in SmartMatching with a fresh fleet and a non-zero power signal,
a positive discharging aggregate yields a discharge rebalance target of
current plus power for the consumed meter and current minus power
otherwise (the produced meter); with no discharging but a positive
charging aggregate, the consumed meter subtracts the power from the
charge target and the produced meter adds it. -/
theorem sign_convention (s : ManagerState) (now : Int) (entity : String) (p dis ch : Int)
    (hop : s.operation = 2) (hfresh : fleet_stale s now = false) (hp : p ≠ 0)
    (hdis : sumE (fun h => h.outputHomePower) s.hypers_discharge = .ok dis)
    (hch : sumE (fun h => h.gridInputPower) s.hypers_charge = .ok ch) :
    (0 < dis → entity = s.consumed →
      update_energy s now entity (some p) =
        .ok ⟨s, upd_discharging s.hypers_discharge (dis + p), false⟩) ∧
    (0 < dis → entity ≠ s.consumed →
      update_energy s now entity (some p) =
        .ok ⟨s, upd_discharging s.hypers_discharge (dis - p), false⟩) ∧
    (dis ≤ 0 → 0 < ch → entity = s.consumed →
      update_energy s now entity (some p) =
        .ok ⟨s, upd_charging s.hypers_charge (ch - p), false⟩) ∧
    (dis ≤ 0 → 0 < ch → entity ≠ s.consumed →
      update_energy s now entity (some p) =
        .ok ⟨s, upd_charging s.hypers_charge (ch + p), false⟩) := by
  have hop1 : ¬ s.operation = 1 := by rw [hop]; decide
  have hbody : update_energy_body s now entity (some p) =
      (if 0 < dis then
        Except.ok ⟨s, upd_discharging s.hypers_discharge
          (dis + p * (if entity = s.consumed then 1 else -1)), false⟩
      else if 0 < ch then
        Except.ok ⟨s, upd_charging s.hypers_charge
          (ch + p * (if entity = s.consumed then -1 else 1)), false⟩
      else if entity = s.produced then
        Except.ok ⟨s, upd_charging s.hypers_charge p, false⟩
      else
        Except.ok ⟨s, upd_discharging s.hypers_discharge p, false⟩) := by
    unfold update_energy_body
    rw [if_neg hop1, if_pos hop, hfresh]
    simp only [Bool.false_eq_true, if_false, ok_bind, pure, Except.pure, knownF,
      if_neg hp, hdis, hch, gt_iff_lt]
  refine ⟨fun hd hc => ?_, fun hd hc => ?_, fun hd hcp hc => ?_, fun hd hcp hc => ?_⟩
  · have hb : update_energy_body s now entity (some p) =
        .ok ⟨s, upd_discharging s.hypers_discharge (dis + p), false⟩ := by
      rw [hbody, if_pos hd, if_pos hc, mul_one]
    simp [update_energy, hb]
  · have harg : dis + p * (-1) = dis - p := by ring
    have hb : update_energy_body s now entity (some p) =
        .ok ⟨s, upd_discharging s.hypers_discharge (dis - p), false⟩ := by
      rw [hbody, if_pos hd, if_neg hc, harg]
    simp [update_energy, hb]
  · have harg : ch + p * (-1) = ch - p := by ring
    have hb : update_energy_body s now entity (some p) =
        .ok ⟨s, upd_charging s.hypers_charge (ch - p), false⟩ := by
      rw [hbody, if_neg (not_lt.mpr hd), if_pos hcp, if_pos hc, harg]
    simp [update_energy, hb]
  · have hb : update_energy_body s now entity (some p) =
        .ok ⟨s, upd_charging s.hypers_charge (ch + p), false⟩ := by
      rw [hbody, if_neg (not_lt.mpr hd), if_pos hcp, if_neg hc, mul_one]
    simp [update_energy, hb]

/-- Witness for C6: a consumed-meter increase of 100 W while discharging
300 W targets 400 W; the same signal on the produced meter targets
200 W. -/
theorem sign_convention_witness :
    update_energy stateDischarging 0 "meter_consumed" (some 100) =
      .ok ⟨stateDischarging, upd_discharging [devD] 400, false⟩ ∧
    update_energy stateDischarging 0 "meter_produced" (some 100) =
      .ok ⟨stateDischarging, upd_discharging [devD] 200, false⟩ := by
  constructor
  · have h := (sign_convention stateDischarging 0 "meter_consumed" 100 300 0
      rfl (by decide) (by decide) (by decide) (by decide)).1 (by decide) rfl
    exact h.trans (by decide)
  · have h := (sign_convention stateDischarging 0 "meter_produced" 100 300 0
      rfl (by decide) (by decide) (by decide) (by decide)).2.1 (by decide) (by decide)
    exact h.trans (by decide)

/-- C7: setting an operation other than SmartMatching (2) — leaving
SmartMatching, or entering Off (0) or Manual (1) — stores the new
operation and issues one zero-flow command (charge flag 0, 0 W charge,
0 W discharge) to every known device exactly once, in catalog order. -/
theorem allstop_on_mode_exit (s : ManagerState) (op : Int)
    (hids : (s.hypers.map Hyper.hid).Nodup)
    (hmode : (s.operation = 2 ∧ op ≠ 2) ∨ op = 0 ∨ op = 1) :
    (update_operation s op).1.operation = op ∧
    (update_operation s op).2 = s.hypers.map (fun h => ⟨h.hid, 0, 0, 0⟩) ∧
    ∀ h ∈ s.hypers, ((update_operation s op).2.count ⟨h.hid, 0, 0, 0⟩) = 1 := by
  have hne : op ≠ 2 := by rcases hmode with ⟨_, h⟩ | h | h <;> omega
  have hcmds : (update_operation s op).2 = s.hypers.map (fun h => ⟨h.hid, 0, 0, 0⟩) := by
    simp [update_operation, hne]
  refine ⟨rfl, hcmds, ?_⟩
  intro h hm
  rw [hcmds]
  have hinj : Function.Injective (fun x : String => (⟨x, 0, 0, 0⟩ : PowerCommand)) :=
    fun a b hab => congrArg PowerCommand.hid hab
  have hnd : (s.hypers.map (fun h => (⟨h.hid, 0, 0, 0⟩ : PowerCommand))).Nodup := by
    have hmm : s.hypers.map (fun h => (⟨h.hid, 0, 0, 0⟩ : PowerCommand)) =
        (s.hypers.map Hyper.hid).map (fun x => ⟨x, 0, 0, 0⟩) := by
      rw [List.map_map]
      rfl
    rw [hmm]
    exact hids.map hinj
  exact List.count_eq_one_of_mem hnd (List.mem_map_of_mem _ hm)

/-- Witness for C7: SmartMatching to Off over a two-device catalog. -/
theorem allstop_on_mode_exit_witness :
    (update_operation stateSmart 0).1.operation = 0 ∧
    (update_operation stateSmart 0).2 = stateSmart.hypers.map (fun h => ⟨h.hid, 0, 0, 0⟩) ∧
    ∀ h ∈ stateSmart.hypers, ((update_operation stateSmart 0).2.count ⟨h.hid, 0, 0, 0⟩) = 1 :=
  allstop_on_mode_exit stateSmart 0 (by decide) (Or.inl ⟨rfl, by decide⟩)

/-- C8: an inbound message whose payload does not parse as JSON, lacks a
`deviceId` (or carries the falsy empty string), or names a device not in
the catalog changes no manager state, for every possible ingest function;
the handler is a total function, so no uncaught error is raised. -/
theorem malformed_message_discarded (ingest : Hyper → String → InPayload → Hyper)
    (s : ManagerState) (msg : InMsg)
    (hbad : msg.payload = none ∨
      (∃ p, msg.payload = some p ∧ p.deviceId = none) ∨
      (∃ p did, msg.payload = some p ∧ p.deviceId = some did ∧
        (s.hypers.find? (fun h => h.hid = did)).isSome = false)) :
    on_message ingest s msg = s := by
  rcases hbad with h | ⟨p, hp, hid⟩ | ⟨p, did, hp, hid, hfind⟩
  · simp [on_message, h]
  · simp [on_message, hp, hid]
  · by_cases hz : did = ""
    · simp [on_message, hp, hid, hz]
    · simp [on_message, hp, hid, hz, hfind]

/-- Witness for C8: a payload naming an unknown device leaves the state
unchanged under an ingest function that rewrites everything. -/
theorem malformed_message_discarded_witness :
    on_message (fun _ _ _ => devU) stateSmart ⟨"topic", some ⟨some "ghost", []⟩⟩ = stateSmart :=
  malformed_message_discarded (fun _ _ _ => devU) stateSmart ⟨"topic", some ⟨some "ghost", []⟩⟩
    (Or.inr (Or.inr ⟨⟨some "ghost", []⟩, "ghost", rfl, rfl, by decide⟩))

/-- Helper: when the line 134 condition is false, every successful result
of the try-block carries `recomputed = false`. -/
theorem body_fresh_no_recompute (s : ManagerState) (now : Int) (e : String) (p : Option Int)
    (r : UpdateResult) (hfresh : fleet_stale s now = false)
    (hok : update_energy_body s now e p = .ok r) : r.recomputed = false := by
  unfold update_energy_body at hok
  by_cases h1 : s.operation = 1
  · rw [if_pos h1] at hok
    simp only [Except.ok.injEq] at hok
    subst hok
    rfl
  rw [if_neg h1] at hok
  by_cases h2 : s.operation = 2
  swap
  · rw [if_neg h2] at hok
    simp only [Except.ok.injEq] at hok
    subst hok
    rfl
  rw [if_pos h2, hfresh] at hok
  simp only [Bool.false_eq_true, if_false, ok_bind, pure, Except.pure] at hok
  cases p with
  | none => simp [knownF, error_bind] at hok
  | some v =>
    simp only [knownF, ok_bind] at hok
    by_cases hv : v = 0
    · rw [if_pos hv] at hok
      simp only [Except.ok.injEq] at hok
      subst hok
      rfl
    rw [if_neg hv] at hok
    cases hd : sumE (fun h => h.outputHomePower) s.hypers_discharge with
    | error msg => rw [hd] at hok; simp [error_bind] at hok
    | ok dis =>
      rw [hd] at hok
      simp only [ok_bind] at hok
      by_cases hdis : dis > 0
      · rw [if_pos hdis] at hok
        simp only [Except.ok.injEq] at hok
        subst hok
        rfl
      rw [if_neg hdis] at hok
      cases hc : sumE (fun h => h.gridInputPower) s.hypers_charge with
      | error msg => rw [hc] at hok; simp [error_bind] at hok
      | ok ch =>
        rw [hc] at hok
        simp only [ok_bind] at hok
        by_cases hch : ch > 0
        · rw [if_pos hch] at hok
          simp only [Except.ok.injEq] at hok
          subst hok
          rfl
        rw [if_neg hch] at hok
        by_cases he : e = s.produced
        · rw [if_pos he] at hok
          simp only [Except.ok.injEq] at hok
          subst hok
          rfl
        · rw [if_neg he] at hok
          simp only [Except.ok.injEq] at hok
          subst hok
          rfl

/-- C9 counterexample: with an empty chargeable list both of two
invocations only 10 s apart recompute the ranked fleet — two
recomputations within one 5-minute freshness window (the deadline written
by the first invocation is 300). -/
theorem freshness_caching_counterexample :
    update_energy stateEmptyFleet 0 "meter_consumed" (some 0) =
      .ok ⟨⟨[], 2, 300, [], [], 0, 0, "meter_consumed", "meter_produced"⟩, [], true⟩ ∧
    update_energy ⟨[], 2, 300, [], [], 0, 0, "meter_consumed", "meter_produced"⟩ 10
        "meter_consumed" (some 0) =
      .ok ⟨⟨[], 2, 310, [], [], 0, 0, "meter_consumed", "meter_produced"⟩, [], true⟩ := by
  decide

/-- C9 amended: two power-signal invocations within the same 5-minute
freshness window trigger at most one recomputation of the ranked fleet,
provided the chargeable candidate list is non-empty after the first
invocation (the line 134 condition consults only the chargeable list):
the second invocation then performs no recomputation. -/
theorem freshness_caching_amended (s : ManagerState) (now1 now2 : Int)
    (e1 e2 : String) (p1 p2 : Option Int) (r1 r2 : UpdateResult)
    (_h1 : update_energy s now1 e1 p1 = .ok r1)
    (hne : r1.state.hypers_charge ≠ [])
    (hwin : ¬ r1.state.next_update < now2)
    (h2 : update_energy r1.state now2 e2 p2 = .ok r2) :
    r2.recomputed = false := by
  have hemp : r1.state.hypers_charge.isEmpty = false := by
    cases hcl : r1.state.hypers_charge with
    | nil => exact absurd hcl hne
    | cons a t => rfl
  have hfresh : fleet_stale r1.state now2 = false := by
    unfold fleet_stale
    simp [hemp, hwin]
  unfold update_energy at h2
  cases hb : update_energy_body r1.state now2 e2 p2 with
  | error m => rw [hb] at h2; simp at h2
  | ok r0 =>
    rw [hb] at h2
    simp only [Except.ok.injEq] at h2
    subst h2
    exact body_fresh_no_recompute _ _ _ _ _ hfresh hb

/-- Witness for the amended C9: first invocation recomputes and leaves a
non-empty chargeable list; the second, 10 s later and inside the window,
does not recompute. -/
theorem freshness_caching_amended_witness :
    update_energy stateFirstCall 0 "meter_consumed" (some 0) =
      .ok ⟨stateAfterFirst, [], true⟩ ∧
    update_energy stateAfterFirst 10 "meter_consumed" (some 0) =
      .ok ⟨stateAfterFirst, [], false⟩ ∧
    (⟨stateAfterFirst, [], false⟩ : UpdateResult).recomputed = false := by
  refine ⟨by decide, by decide, ?_⟩
  exact freshness_caching_amended stateFirstCall 0 10 "meter_consumed" "meter_consumed"
    (some 0) (some 0) ⟨stateAfterFirst, [], true⟩ ⟨stateAfterFirst, [], false⟩
    (by decide) (by decide) (by decide) (by decide)
